import Mathlib

/-!
Verification development for the rampage-rider simulation core.

The definitions below are a shallow embedding of the TypeScript sources:
- `GameStats`, `killEntityStats`, `comboDecayTick` embed the combo/score part of
  `killEntity` and `updateGameLogic` in `old-code/services/gameEngine.ts`;
- `VMState` and its operations embed `VehicleManager`
  (`checkTierProgression`, `spawnAwaitingVehicle`, `switchToAwaitingVehicle`,
  `exitVehicle`, `findSafeVehicleSpawnPosition`, `findSafeExitPosition`);
- `CopState`/`CarState` embed `Cop.takeDamage`/`Cop.die` and `Car.takeDamage`;
- collision-group constants and the movement filter embed `Car`'s
  `movementCollisionFilter` and the Rapier group-packing convention
  `(filter << 16) | membership` used throughout the sources.

Machine numbers (scores, timers, positions) are modelled as rationals; the
arithmetic the theorems touch is exact in both the source and the model.
-/

namespace RampageRider

/-- Game statistics record, after `GameStats`/`this.stats` of
`old-code/services/gameEngine.ts`. -/
structure GameStats where
  kills : Nat
  score : ℚ
  combo : Nat
  comboTimer : ℚ
  health : ℚ
  gameTime : ℚ
  deriving DecidableEq, Repr

/-- Stats effect of `killEntity` (gameEngine.ts lines 581-596):
`kills++; score += 100 * (1 + combo * 0.1); combo++; comboTimer = 3.0;`
`health = min(health + 5, 100)`.  The score line reads `this.stats.combo`
before the `combo++` line runs. -/
def killEntityStats (s : GameStats) : GameStats :=
  { s with
    kills := s.kills + 1
    score := s.score + 100 * (1 + (s.combo : ℚ) * (1 / 10))
    combo := s.combo + 1
    comboTimer := 3
    health := min (s.health + 5) 100 }

/-- Combo bookkeeping at the top of each `updateGameLogic(dt)` tick
(gameEngine.ts lines 420-425):
`gameTime += dt; comboTimer = max(0, comboTimer - dt);`
`if (comboTimer === 0) combo = 0;`. -/
def comboDecayTick (dt : ℚ) (s : GameStats) : GameStats :=
  let s1 := { s with
    gameTime := s.gameTime + dt
    comboTimer := max 0 (s.comboTimer - dt) }
  if s1.comboTimer = 0 then { s1 with combo := 0 } else s1

/-- Score increment the spec's combo formula prescribes for one kill, written
from the spec's words for comparison with `killEntityStats`:
`base(kind) * (1 + min(comboCount, 50) * 0.1)` where `comboCount` is the combo
value after the increment and `base` is 100 for the pedestrian kill considered. -/
def specClaimScoreDelta (comboBefore : Nat) : ℚ :=
  100 * (1 + (min (comboBefore + 1) 50 : ℚ) * (1 / 10))

/-- A concrete fresh-run statistics record. -/
def stats0 : GameStats :=
  { kills := 0, score := 0, combo := 0, comboTimer := 0, health := 100, gameTime := 0 }

/-! ## Tiers and the vehicle manager (`VehicleManager`, unnamed part_008) -/

/-- Progression tiers, after `Tier` in `src/types.ts` as used by
`VehicleManager.checkTierProgression` and `debugSpawnVehicle`. -/
inductive Tier where
  | FOOT
  | BIKE
  | MOTO
  | SEDAN
  | TRUCK
  deriving DecidableEq, Repr

/-- Numeric rank of a tier in progression order. -/
def tierRank : Tier → Nat
  | .FOOT => 0
  | .BIKE => 1
  | .MOTO => 2
  | .SEDAN => 3
  | .TRUCK => 4

/-- The immediate next tier in progression order, none from the last tier. -/
def tierSucc : Tier → Option Tier
  | .FOOT => some .BIKE
  | .BIKE => some .MOTO
  | .MOTO => some .SEDAN
  | .SEDAN => some .TRUCK
  | .TRUCK => none

/-- Vehicle kinds, after `VehicleType` in `src/constants.ts` as used by
`TIER_VEHICLE_MAP` and `debugSpawnVehicle`. -/
inductive VehicleType where
  | BICYCLE
  | MOTORBIKE
  | SEDAN
  | TRUCK
  deriving DecidableEq, Repr

/-- Tier-to-vehicle map, after `TIER_VEHICLE_MAP`:
`debugSpawnVehicle` (part_008 lines 509-512) pairs BICYCLE with BIKE,
MOTORBIKE with MOTO, SEDAN with SEDAN and TRUCK with TRUCK; the FOOT tier has
no vehicle, which is why `spawnVehicle`/`spawnAwaitingVehicle` bail out on a
missing map entry. -/
def TIER_VEHICLE_MAP : Tier → Option VehicleType
  | .FOOT => none
  | .BIKE => some .BICYCLE
  | .MOTO => some .MOTORBIKE
  | .SEDAN => some .SEDAN
  | .TRUCK => some .TRUCK

/-- Tier score thresholds: `TIER_CONFIGS[t].minScore`, abstracted as a
parameter since `src/constants.ts` is not among the sources.  All theorems
below hold for every threshold assignment; concrete instances use
`tierConfig0`. -/
def TierThresholds : Type := Tier → ℚ

/-- A concrete strictly increasing threshold assignment, used for closed
instances (the spec gives 500 as an example threshold). -/
def tierConfig0 : Tier → ℚ
  | .FOOT => 0
  | .BIKE => 500
  | .MOTO => 1000
  | .SEDAN => 1500
  | .TRUCK => 2000

/-- A point in world space with rational coordinates. -/
structure Pos where
  x : ℚ
  y : ℚ
  z : ℚ
  deriving DecidableEq, Repr

instance : Add Pos :=
  ⟨fun a b => ⟨a.x + b.x, a.y + b.y, a.z + b.z⟩⟩

/-- Collision group membership bits, from the comments and literals in the
sources: GROUND `0x0001`, PEDESTRIAN `0x0004`, COP `0x0008`,
BUILDING `0x0040`, VEHICLE `0x0080` (part_009 lines 17-23 and 143-149,
part_010 lines 58-64). -/
def GROUND_GROUP : Nat := 0x0001

/-- Pedestrian collision group membership bit. -/
def PEDESTRIAN_GROUP : Nat := 0x0004

/-- Cop collision group membership bit. -/
def COP_GROUP : Nat := 0x0008

/-- Building collision group membership bit. -/
def BUILDING_GROUP : Nat := 0x0040

/-- Vehicle collision group membership bit. -/
def VEHICLE_GROUP : Nat := 0x0080

/-- Ray-cast backend for the placement searches.  `castHorizontal origin off`
is `world.castRay` along the ray starting at `origin` in the horizontal
direction of the offset `off` with the offset's length as maximum distance;
`castDown origin` is `world.castRay` straight down with maximum distance 15.
Both return the hit collider's `collisionGroups()` word, or none when nothing
is hit.  The backend is the external Collision World of the spec; the searches
only inspect `hit.collider.collisionGroups() & 0xFFFF`. -/
structure RayWorld where
  castHorizontal : Pos → Pos → Option Nat
  castDown : Pos → Option Nat

/-- Whether the horizontal validation cast from `from_` toward offset `off`
reports a blocking building: mirrors
`horizontalHit && (horizontalHit.collider.collisionGroups() & 0xFFFF) === BUILDING_GROUP`
in `findSafeVehicleSpawnPosition`/`findSafeExitPosition` (the ray origin is
raised by one unit in y in both). -/
def horizBlocked (w : RayWorld) (from_ : Pos) (off : Pos) : Bool :=
  match w.castHorizontal ⟨from_.x, from_.y + 1, from_.z⟩ ⟨off.x, 0, off.z⟩ with
  | some g => (g &&& 0xFFFF) == BUILDING_GROUP
  | none => false

/-- Whether the downward validation cast above `test` finds solid ground:
mirrors `downHit && (downHit.collider.collisionGroups() & 0xFFFF) === GROUND_GROUP`
with origin raised by 10 units in `findSafeVehicleSpawnPosition`. -/
def downGroundOk (w : RayWorld) (test : Pos) : Bool :=
  match w.castDown ⟨test.x, test.y + 10, test.z⟩ with
  | some g => (g &&& 0xFFFF) == GROUND_GROUP
  | none => false

/-- The fixed ring of spawn offset candidates `_spawnOffsets`
(part_008 lines 48-57). -/
def spawnOffsets : List Pos :=
  [⟨5, 0, 0⟩, ⟨-5, 0, 0⟩, ⟨0, 0, 5⟩, ⟨0, 0, -5⟩,
   ⟨5, 0, 5⟩, ⟨-5, 0, -5⟩, ⟨5, 0, -5⟩, ⟨-5, 0, 5⟩]

/-- The fixed ring of exit offset candidates `_exitOffsets`
(part_008 lines 59-64). -/
def exitOffsets : List Pos :=
  [⟨3, 0, 0⟩, ⟨-3, 0, 0⟩, ⟨0, 0, 3⟩, ⟨0, 0, -3⟩]

/-- The candidate loop of `findSafeVehicleSpawnPosition` (part_008 lines
407-437): skip a candidate when the horizontal cast hits a building, accept it
when the downward cast finds ground, otherwise move on; past the last
candidate fall back to the player position. -/
def findSpawnLoop (w : RayWorld) (playerPos : Pos) : List Pos → Pos
  | [] => playerPos
  | off :: rest =>
    if horizBlocked w playerPos off then
      findSpawnLoop w playerPos rest
    else
      match w.castDown ⟨(playerPos + off).x, (playerPos + off).y + 10, (playerPos + off).z⟩ with
      | some g =>
        if (g &&& 0xFFFF) == GROUND_GROUP then playerPos + off
        else findSpawnLoop w playerPos rest
      | none => findSpawnLoop w playerPos rest

/-- Embeds `VehicleManager.findSafeVehicleSpawnPosition` (part_008 lines 390-440),
for a present physics world. -/
def findSafeVehicleSpawnPosition (w : RayWorld) (playerPos : Pos) : Pos :=
  findSpawnLoop w playerPos spawnOffsets

/-- The candidate loop of `findSafeExitPosition` (part_008 lines 455-475):
skip a candidate when the horizontal cast hits a building, otherwise accept it
immediately; there is no downward ground cast on this path. -/
def findExitLoop (w : RayWorld) (vehiclePos : Pos) : List Pos → Pos
  | [] => vehiclePos
  | off :: rest =>
    if horizBlocked w vehiclePos off then
      findExitLoop w vehiclePos rest
    else
      vehiclePos + off

/-- Embeds `VehicleManager.findSafeExitPosition` (part_008 lines 445-478), for a
present physics world. -/
def findSafeExitPosition (w : RayWorld) (vehiclePos : Pos) : Pos :=
  findExitLoop w vehiclePos exitOffsets

/-- Spawn-candidate acceptance as the spec states it: no building blocks the
straight horizontal path and the downward cast finds solid ground. -/
def spawnAccepted (w : RayWorld) (playerPos : Pos) (off : Pos) : Bool :=
  !horizBlocked w playerPos off && downGroundOk w (playerPos + off)

/-- Exit-candidate acceptance as coded: only the horizontal building check. -/
def exitAccepted (w : RayWorld) (vehiclePos : Pos) (off : Pos) : Bool :=
  !horizBlocked w vehiclePos off

/-- Vehicle-manager state: the fields of `VehicleManager` the progression and
exit logic reads and writes.  Vehicle object identities are numbers. -/
structure VMState where
  vehicle : Option Nat
  isInVehicle : Bool
  vehicleSpawned : Bool
  currentVehicleTier : Option Tier
  awaitingVehicle : Option Nat
  awaitingVehicleTier : Option Tier
  vehiclesToCleanup : List (Nat × ℚ)
  deriving DecidableEq, Repr

/-- The fresh `VehicleManager` state after construction. -/
def vmInitial : VMState :=
  { vehicle := none
    isInVehicle := false
    vehicleSpawned := false
    currentVehicleTier := none
    awaitingVehicle := none
    awaitingVehicleTier := none
    vehiclesToCleanup := [] }

/-- The current effective tier as computed inside `checkTierProgression`
(part_008 lines 175-176):
`isInVehicle ? currentVehicleTier : vehicleSpawned ? currentVehicleTier : Tier.FOOT`. -/
def effectiveTier (s : VMState) : Option Tier :=
  if s.isInVehicle then s.currentVehicleTier
  else if s.vehicleSpawned then s.currentVehicleTier
  else some .FOOT

/-- The effective tier with the null case folded to FOOT, which is how the
branch chain of `checkTierProgression` treats it
(`effectiveTier === Tier.FOOT || effectiveTier === null`). -/
def effectiveTierView (s : VMState) : Tier :=
  (effectiveTier s).getD .FOOT

/-- Rank of the effective tier. -/
def effRank (s : VMState) : Nat :=
  tierRank (effectiveTierView s)

/-- Embeds `VehicleManager.checkTierProgression` (part_008 lines 168-200), with the
player present and the thresholds `cfg t = TIER_CONFIGS[t].minScore` as a
parameter. -/
def checkTierProgression (cfg : Tier → ℚ) (s : VMState) (score : ℚ) : Option Tier :=
  if s.awaitingVehicle.isSome then none
  else
    match effectiveTier s with
    | none => if score ≥ cfg .BIKE then some .BIKE else none
    | some .FOOT => if score ≥ cfg .BIKE then some .BIKE else none
    | some .BIKE => if score ≥ cfg .MOTO then some .MOTO else none
    | some .MOTO => if score ≥ cfg .SEDAN then some .SEDAN else none
    | some .SEDAN => if score ≥ cfg .TRUCK then some .TRUCK else none
    | some .TRUCK => none

/-- Embeds `VehicleManager.spawnAwaitingVehicle` (part_008 lines 139-163), with the
physics world present; `newId` is the fresh `Vehicle` object.  Returns the
state unchanged while an awaiting vehicle already exists, or when the tier has
no vehicle kind. -/
def spawnAwaitingVehicle (tier : Tier) (newId : Nat) (s : VMState) : VMState :=
  if s.awaitingVehicle.isSome then s
  else
    match TIER_VEHICLE_MAP tier with
    | none => s
    | some _ =>
      { s with awaitingVehicle := some newId, awaitingVehicleTier := some tier }

/-- Embeds `VehicleManager.enterVehicle` (part_008 lines 205-224), state part. -/
def enterVehicle (s : VMState) : VMState :=
  if s.vehicle.isNone || s.isInVehicle then s
  else { s with isInVehicle := true }

/-- Embeds `VehicleManager.switchToAwaitingVehicle` (part_008 lines 260-296):
queue the old vehicle for cleanup with a 3.0 second timer when the player was
in one, promote the awaiting vehicle to current, clear the awaiting state and
enter the new vehicle. -/
def switchToAwaitingVehicle (s : VMState) : VMState :=
  match s.awaitingVehicle with
  | none => s
  | some av =>
    let s1 :=
      match s.isInVehicle, s.vehicle with
      | true, some v =>
        { s with
          vehiclesToCleanup := s.vehiclesToCleanup ++ [(v, 3)]
          vehicle := none
          isInVehicle := false }
      | _, _ => s
    let s2 := { s1 with
      vehicle := some av
      currentVehicleTier := s.awaitingVehicleTier
      vehicleSpawned := true
      awaitingVehicle := none
      awaitingVehicleTier := none }
    enterVehicle s2

/-- Embeds `VehicleManager.exitVehicle` (part_008 lines 229-255): with no current
vehicle it returns null and changes nothing; otherwise it computes the safe
exit position, removes and disposes the current vehicle immediately (the
cleanup queue is not touched on this path) and resets the current-vehicle
state. -/
def exitVehicle (w : RayWorld) (vehiclePos : Pos) (s : VMState) : Option Pos × VMState :=
  match s.vehicle with
  | none => (none, s)
  | some _ =>
    (some (findSafeExitPosition w vehiclePos),
     { s with
       vehicle := none
       isInVehicle := false
       vehicleSpawned := false
       currentVehicleTier := none })

/-! ## Run model for the progression controller

The engine polls `checkTierProgression(score)` every tick and, on a due tier,
invokes `spawnAwaitingVehicle` with the returned tier (spec section 4.4); the
player may then switch to the awaiting vehicle, and may exit or lose the
current vehicle.  A run is a list of such operations. -/

/-- One progression-related operation of a run. -/
inductive RunOp where
  | checkSpawn (score : ℚ) (newId : Nat)
  | switchVehicle
  | exitCurrent
  deriving DecidableEq, Repr

/-- State transition of one run operation.  `checkSpawn` polls
`checkTierProgression` and feeds a due tier straight into
`spawnAwaitingVehicle`; `exitCurrent` is `exitVehicle` (the vehicle position
is irrelevant to the manager state). -/
def runStep (cfg : Tier → ℚ) (w : RayWorld) (s : VMState) : RunOp → VMState
  | .checkSpawn score newId =>
    match checkTierProgression cfg s score with
    | some t => spawnAwaitingVehicle t newId s
    | none => s
  | .switchVehicle => switchToAwaitingVehicle s
  | .exitCurrent => (exitVehicle w ⟨0, 0, 0⟩ s).2

/-- The tiers returned by the `checkTierProgression` polls of a run, in
order, omitting the null returns. -/
def returnedTiers (cfg : Tier → ℚ) (w : RayWorld) (s : VMState) : List RunOp → List Tier
  | [] => []
  | op :: rest =>
    (match op with
     | .checkSpawn score _ => (checkTierProgression cfg s score).toList
     | _ => []) ++ returnedTiers cfg w (runStep cfg w s op) rest

/-- Consistency of the awaiting-vehicle fields: the tier tag is present
exactly when the vehicle is, and an outstanding offer is for the successor of
the current effective tier.  The fresh state satisfies it and every run
operation preserves it. -/
def vmInv (s : VMState) : Bool :=
  (s.awaitingVehicle.isSome == s.awaitingVehicleTier.isSome) &&
  s.awaitingVehicleTier.all (fun t => tierRank t == effRank s + 1)

/-- A concrete manager state with the player driving a sedan and no
outstanding offer. -/
def vmDriving : VMState :=
  { vehicle := some 7
    isInVehicle := true
    vehicleSpawned := true
    currentVehicleTier := some .SEDAN
    awaitingVehicle := none
    awaitingVehicleTier := none
    vehiclesToCleanup := [] }

/-- A concrete manager state with an outstanding BIKE offer. -/
def vmAwaitingBike : VMState :=
  { vmInitial with awaitingVehicle := some 1, awaitingVehicleTier := some .BIKE }

/-- A trivial ray world: no buildings anywhere, no ground anywhere. -/
def emptyWorld : RayWorld :=
  { castHorizontal := fun _ _ => none, castDown := fun _ => none }

/-- A ray world whose downward casts always find ground and whose horizontal
casts hit nothing. -/
def flatWorld : RayWorld :=
  { castHorizontal := fun _ _ => none, castDown := fun _ => some GROUND_GROUP }

/-! ## Hostile and vehicle damage (`Cop`, part_010; `Car`, part_009) -/

/-- Steering behavior kinds attached to a cop's Yuka vehicle
(part_010 lines 182-205). -/
inductive SteeringKind where
  | seek
  | separation
  | obstacleAvoidance
  deriving DecidableEq, Repr

/-- The state of a `Cop` that damage and death touch: the dead flag, integer
health, the Yuka vehicle's maximum speed, and the steering behavior list. -/
structure CopState where
  isDead : Bool
  health : ℤ
  maxSpeed : ℚ
  behaviors : List SteeringKind
  deriving DecidableEq, Repr

/-- Embeds `Cop.die` (part_010 lines 223-236): set the dead flag, force the maximum
speed to zero and clear the steering behaviors. -/
def copDie (c : CopState) : CopState :=
  { c with isDead := true, maxSpeed := 0, behaviors := [] }

/-- Embeds `Cop.takeDamage` (part_010 lines 210-218): a no-op on a dead cop;
otherwise decrement health and die at or below zero. -/
def copTakeDamage (amount : ℤ) (c : CopState) : CopState :=
  if c.isDead then c
  else
    let c1 := { c with health := c.health - amount }
    if c1.health ≤ 0 then copDie c1 else c1

/-- A freshly spawned cop: alive, one health, chase speed 9
(part_010 lines 29-46). -/
def copFresh : CopState :=
  { isDead := false, health := 1, maxSpeed := 9,
    behaviors := [.seek, .separation, .obstacleAvoidance] }

/-- The state of a `Car` that damage and destruction touch. -/
structure CarState where
  isDestroyed : Bool
  health : ℚ
  deriving DecidableEq, Repr

/-- Embeds `Car.explode` (part_009 lines 317-345), state part: guarded by the
destroyed flag, sets it. -/
def carExplode (c : CarState) : CarState :=
  if c.isDestroyed then c else { c with isDestroyed := true }

/-- Embeds `Car.takeDamage` (part_009 lines 279-292): a no-op on a destroyed car;
otherwise clamp health at zero and explode at or below zero. -/
def carTakeDamage (amount : ℚ) (c : CarState) : CarState :=
  if c.isDestroyed then c
  else
    let c1 := { c with health := max 0 (c.health - amount) }
    if c1.health ≤ 0 then carExplode c1 else c1

/-- A freshly spawned car at `CAR_CONFIG.MAX_HEALTH = 100`. -/
def carFresh : CarState :=
  { isDestroyed := false, health := 100 }

/-! ## Collision groups and the movement filter (`Car`, part_009) -/

/-- Embeds `Car.movementCollisionFilter` (part_009 lines 47-50):
`((GROUND | BUILDING) << 16) | VEHICLE` in the Rapier packing
`(filter << 16) | membership`. -/
def movementCollisionFilter : Nat :=
  ((GROUND_GROUP ||| BUILDING_GROUP) <<< 16) ||| VEHICLE_GROUP

/-- The filter half of a packed collision-groups word. -/
def groupsFilter (g : Nat) : Nat := g >>> 16

/-- The membership half of a packed collision-groups word. -/
def groupsMembership (g : Nat) : Nat := g &&& 0xFFFF

/-- Modelled from the spec: the Collision World's
`resolveCharacterMovement(shape, desiredDelta, filterMask)` contract — a
movement query is deflected only by obstacles whose collision-group
membership intersects the mover's filter mask (spec sections 3 and 6; the
Rapier implementation behind `computeColliderMovement` is external to the
repository).  `deflects mover obstacle` decides whether an obstacle with the
packed groups `obstacle` can deflect a mover querying with the packed groups
`mover`. -/
def deflects (mover : Nat) (obstacle : Nat) : Bool :=
  (groupsFilter mover &&& groupsMembership obstacle) ≠ 0

/-- Modelled from the spec: the corrected displacement returned by the
Collision World.  When none of the overlapping obstacle shapes passes the
mover's filter, the desired displacement comes back unchanged; otherwise the
backend clamps it in some backend-determined way (`clamp`). -/
def resolveCharacterMovement (mover : Nat) (obstacles : List Nat)
    (clamp : Pos → Pos) (desired : Pos) : Pos :=
  if obstacles.any (fun o => deflects mover o) then clamp desired else desired

/-! ## Rampage time scale -/

/-- Modelled from the spec: the Engine implementation of the rampage slow-mo
is not among the sources; the design document embedded at
`old-code/services/gameEngine.ts` lines 1796-1831 gives its code:
`rampageTimeScale = RAMPAGE_SLOW_MO` (0.3) while the rampage dimension is
active and 1.0 otherwise. -/
def RAMPAGE_SLOW_MO : ℚ := 3 / 10

/-- The per-population multiplier published while the rampage state is
`active`. -/
def rampageTimeScale (active : Bool) : ℚ :=
  if active then RAMPAGE_SLOW_MO else 1

/-- The entity populations the tick loop updates. -/
inductive Population where
  | avatar
  | hostile
  | pedestrian
  deriving DecidableEq, Repr

/-- Modelled from the spec: the per-tick delta each population's update call
receives (design document, same lines): pedestrians and cops get
`entityDt = dt * rampageTimeScale`, the player always gets `dt`; the global
`dt` itself is never reassigned. -/
def appliedDt (active : Bool) (dt : ℚ) : Population → ℚ
  | .avatar => dt
  | .hostile => dt * rampageTimeScale active
  | .pedestrian => dt * rampageTimeScale active

/-! ## Theorems -/

/-- C1 counterexample: on the very first kill of a run the code adds
`100 * (1 + 0 * 0.1) = 100` to the score — the multiplier reads the combo
value before the increment — while the claim's formula
`base * (1 + min(comboCount, 50) * 0.1)` with the post-increment combo value 1
prescribes 110. -/
theorem killEntity_score_delta_ne_claim :
    (killEntityStats stats0).score - stats0.score = 100 ∧
    specClaimScoreDelta stats0.combo = 110 ∧
    (killEntityStats stats0).score - stats0.score ≠ specClaimScoreDelta stats0.combo := by
  refine ⟨?_, ?_, ?_⟩
  · norm_num [killEntityStats, stats0]
  · norm_num [specClaimScoreDelta, stats0]
  · norm_num [killEntityStats, specClaimScoreDelta, stats0]

/-- C1 (amended): every kill processed by `killEntity` increments the combo
count by exactly 1, resets the combo timer to the fixed 3.0-second window, and
increases the score by `100 * (1 + comboCount * 0.1)` where `comboCount` is
the combo value before the increment — a flat base of 100 for every entity
kind and no cap on the multiplier; over any sequence of `n + 1` consecutive
kills the total score gain is the sum of these per-kill increments. -/
theorem killEntity_combo_score_update (s : GameStats) (n : Nat) :
    (killEntityStats s).combo = s.combo + 1 ∧
    (killEntityStats s).comboTimer = 3 ∧
    (killEntityStats s).score = s.score + 100 * (1 + (s.combo : ℚ) * (1 / 10)) ∧
    (killEntityStats^[n + 1] s).combo = s.combo + (n + 1) ∧
    (killEntityStats^[n + 1] s).comboTimer = 3 ∧
    (killEntityStats^[n + 1] s).score =
      s.score + Finset.sum (Finset.range (n + 1))
        (fun i => 100 * (1 + ((s.combo + i : Nat) : ℚ) * (1 / 10))) := by
  refine ⟨rfl, rfl, rfl, ?_⟩
  induction n with
  | zero =>
    refine ⟨rfl, rfl, ?_⟩
    simp [killEntityStats, Finset.sum_range_one]
  | succ m ih =>
    obtain ⟨ihc, iht, ihs⟩ := ih
    rw [Function.iterate_succ_apply']
    refine ⟨?_, rfl, ?_⟩
    · show (killEntityStats (killEntityStats^[m + 1] s)).combo = s.combo + (m + 1 + 1)
      rw [show (killEntityStats (killEntityStats^[m + 1] s)).combo =
            (killEntityStats^[m + 1] s).combo + 1 from rfl, ihc]
      omega
    · show (killEntityStats (killEntityStats^[m + 1] s)).score =
        s.score + Finset.sum (Finset.range (m + 1 + 1))
          (fun i => 100 * (1 + ((s.combo + i : Nat) : ℚ) * (1 / 10)))
      rw [show (killEntityStats (killEntityStats^[m + 1] s)).score =
            (killEntityStats^[m + 1] s).score +
              100 * (1 + (((killEntityStats^[m + 1] s).combo : Nat) : ℚ) * (1 / 10)) from rfl,
          ihs, ihc,
          Finset.sum_range_succ (fun i => 100 * (1 + ((s.combo + i : Nat) : ℚ) * (1 / 10)))
            (m + 1)]
      push_cast
      ring

/-- C5: the combo timer decays by the raw wall-clock tick delta, clamped at
zero; whenever the decrement reaches or passes zero during a tick, the combo
count reads zero at the end of that same tick, and with the timer already at
zero any further kill-free tick keeps the combo at zero. -/
theorem comboTimer_decay_resets_combo (dt : ℚ) (s : GameStats) :
    (comboDecayTick dt s).comboTimer = max 0 (s.comboTimer - dt) ∧
    (s.comboTimer - dt ≤ 0 → (comboDecayTick dt s).combo = 0) ∧
    (0 ≤ dt → s.comboTimer = 0 → (comboDecayTick dt s).combo = 0) := by
  unfold comboDecayTick
  by_cases h : max 0 (s.comboTimer - dt) = 0
  · simp [h]
  · have h2 : ¬ s.comboTimer - dt ≤ 0 := by
      intro hle
      exact h (max_eq_left hle)
    refine ⟨by simp [h], fun hle => absurd hle h2, fun hdt h0 => ?_⟩
    exact absurd (by rw [h0]; linarith) h2

/-- C5 witness: a tick of 2 seconds on a timer of 1.5 seconds zeroes the
combo in that same tick. -/
theorem comboTimer_decay_resets_combo_witness :
    (comboDecayTick 2 { stats0 with comboTimer := 3 / 2, combo := 7 }).combo = 0 :=
  (comboTimer_decay_resets_combo 2 { stats0 with comboTimer := 3 / 2, combo := 7 }).2.1
    (by norm_num [stats0])

/-- C9: during an active rampage every tick applies time scale 1.0 to the
avatar and the fixed fraction 0.3 to the hostile and pedestrian populations
simultaneously; the global delta is never mutated — only a per-population
multiplier is applied — so in every state, active or not, the avatar's applied
delta equals the raw tick delta. -/
theorem rampage_timescale_symmetry (dt : ℚ) (active : Bool) :
    appliedDt true dt .avatar = dt ∧
    appliedDt true dt .hostile = dt * RAMPAGE_SLOW_MO ∧
    appliedDt true dt .pedestrian = dt * RAMPAGE_SLOW_MO ∧
    rampageTimeScale true = 3 / 10 ∧
    appliedDt active dt .avatar = dt := by
  refine ⟨rfl, ?_, ?_, rfl, rfl⟩ <;> simp [appliedDt, rampageTimeScale]

/-- Helper for C4: the spawn candidate loop returns the first accepted
candidate position, else the fallback. -/
theorem findSpawnLoop_eq_find (w : RayWorld) (p : Pos) (l : List Pos) :
    findSpawnLoop w p l =
      (match l.find? (spawnAccepted w p) with
       | some off => p + off
       | none => p) := by
  induction l with
  | nil => rfl
  | cons o rest ih =>
    by_cases hb : horizBlocked w p o
    · have hacc : spawnAccepted w p o = false := by
        simp [spawnAccepted, hb]
      simp only [findSpawnLoop, hb, if_true, List.find?, hacc]
      exact ih
    · have hnb : horizBlocked w p o = false := by simpa using hb
      cases hd : w.castDown ⟨(p + o).x, (p + o).y + 10, (p + o).z⟩ with
      | none =>
        have hacc : spawnAccepted w p o = false := by
          simp [spawnAccepted, hnb, downGroundOk, hd]
        simp only [findSpawnLoop, hnb, Bool.false_eq_true, if_false, hd, List.find?, hacc]
        exact ih
      | some g =>
        by_cases hg : (g &&& 0xFFFF) == GROUND_GROUP
        · have hacc : spawnAccepted w p o = true := by
            simp only [spawnAccepted, hnb, downGroundOk, hd, hg]
            rfl
          simp only [findSpawnLoop, hnb, Bool.false_eq_true, if_false, hd, hg, if_true,
            List.find?, hacc]
        · have hgf : ((g &&& 0xFFFF) == GROUND_GROUP) = false := by simpa using hg
          have hacc : spawnAccepted w p o = false := by
            simp [spawnAccepted, hnb, downGroundOk, hd, hgf]
          simp only [findSpawnLoop, hnb, Bool.false_eq_true, if_false, hd, hgf,
            Bool.false_eq_true, if_false, List.find?, hacc]
          exact ih

/-- C4: vehicle placement walks the fixed ring of 8 offset candidates in
order; a candidate is accepted exactly when the horizontal cast toward it
reports no blocking building and the downward cast above it finds solid
ground; the first accepted candidate's position is returned, and when every
candidate fails the source position itself is returned, so placement always
yields a position. -/
theorem tier_spawn_placement (w : RayWorld) (p : Pos) :
    findSafeVehicleSpawnPosition w p =
      (match spawnOffsets.find? (spawnAccepted w p) with
       | some off => p + off
       | none => p) :=
  findSpawnLoop_eq_find w p spawnOffsets

/-- Helper: a non-null `checkTierProgression` result means no offer was
outstanding and the returned tier ranks exactly one above the current
effective tier. -/
theorem checkTier_some (cfg : Tier → ℚ) (s : VMState) (score : ℚ) (t : Tier)
    (h : checkTierProgression cfg s score = some t) :
    s.awaitingVehicle = none ∧ tierRank t = effRank s + 1 := by
  unfold checkTierProgression at h
  by_cases ha : s.awaitingVehicle.isSome
  · rw [if_pos ha] at h
    exact absurd h (by simp)
  · rw [if_neg ha] at h
    refine ⟨Option.not_isSome_iff_eq_none.mp ha, ?_⟩
    unfold effRank effectiveTierView
    split at h
    · rename_i heq
      split at h
      · injection h with h'
        subst h'
        rw [heq]
        rfl
      · exact absurd h (by simp)
    · rename_i heq
      split at h
      · injection h with h'
        subst h'
        rw [heq]
        rfl
      · exact absurd h (by simp)
    · rename_i heq
      split at h
      · injection h with h'
        subst h'
        rw [heq]
        rfl
      · exact absurd h (by simp)
    · rename_i heq
      split at h
      · injection h with h'
        subst h'
        rw [heq]
        rfl
      · exact absurd h (by simp)
    · rename_i heq
      split at h
      · injection h with h'
        subst h'
        rw [heq]
        rfl
      · exact absurd h (by simp)
    · exact absurd h (by simp)

/-- C3: while an awaiting vehicle exists the offer is outstanding:
`checkTierProgression` returns null, `spawnAwaitingVehicle` returns without
spawning, and the per-tick poll-and-spawn step leaves the manager state
unchanged — so a crossed threshold fires at most once while the offer
stands. -/
theorem tier_offer_no_retrigger (cfg : Tier → ℚ) (w : RayWorld) (s : VMState)
    (score : ℚ) (t : Tier) (newId : Nat) (h : s.awaitingVehicle.isSome) :
    checkTierProgression cfg s score = none ∧
    spawnAwaitingVehicle t newId s = s ∧
    runStep cfg w s (.checkSpawn score newId) = s := by
  have h1 : checkTierProgression cfg s score = none := by
    unfold checkTierProgression
    rw [if_pos h]
  refine ⟨h1, ?_, ?_⟩
  · unfold spawnAwaitingVehicle
    rw [if_pos h]
  · have h2 : runStep cfg w s (.checkSpawn score newId) =
        (match checkTierProgression cfg s score with
         | some t' => spawnAwaitingVehicle t' newId s
         | none => s) := rfl
    rw [h2, h1]

/-- C3 witness: with a BIKE offer outstanding, polling at score 9999 returns
null. -/
theorem tier_offer_no_retrigger_witness :
    checkTierProgression tierConfig0 vmAwaitingBike 9999 = none :=
  (tier_offer_no_retrigger tierConfig0 emptyWorld vmAwaitingBike 9999 .MOTO 2 (by decide)).1

/-- C10: `checkTierProgression` never skips a tier: whenever it returns a
tier, that tier is exactly the successor of the current effective tier (the
null effective state counting as Foot), regardless of how far the score
exceeds higher thresholds; and from the Truck tier it always returns null. -/
theorem checkTier_no_skip (cfg : Tier → ℚ) (s : VMState) (score : ℚ) :
    (∀ t, checkTierProgression cfg s score = some t →
      tierSucc (effectiveTierView s) = some t) ∧
    (effectiveTierView s = .TRUCK → checkTierProgression cfg s score = none) := by
  constructor
  · intro t ht
    have h2 := (checkTier_some cfg s score t ht).2
    unfold effRank at h2
    cases hv : effectiveTierView s <;> rw [hv] at h2 <;> cases t <;>
      first
        | rfl
        | exact absurd h2 (by decide)
  · intro hv
    unfold checkTierProgression
    by_cases ha : s.awaitingVehicle.isSome
    · rw [if_pos ha]
    · rw [if_neg ha]
      unfold effectiveTierView at hv
      cases heff : effectiveTier s with
      | none =>
        rw [heff] at hv
        exact absurd hv (by decide)
      | some tier =>
        rw [heff] at hv
        simp only [Option.getD_some] at hv
        subst hv
        rfl

/-- C10 witness: at score 600 from a fresh run the poll returns BIKE, the
successor of the Foot effective tier. -/
theorem checkTier_no_skip_witness :
    tierSucc (effectiveTierView vmInitial) = some Tier.BIKE :=
  (checkTier_no_skip tierConfig0 vmInitial 600).1 Tier.BIKE (by decide)

/-- C7: damage to an already-dead entity is a no-op behind the dead flag —
`takeDamage` on a dead cop or a destroyed car changes nothing — and the death
transition fires exactly once: a damage call that kills a live cop zeroes its
maximum speed, clears its steering behaviors and makes every further damage
call the identity, and likewise a destroying hit on a live car makes further
damage calls the identity. -/
theorem dead_entity_damage_noop (c : CopState) (v : CarState) (a b : ℤ) (q r : ℚ)
    (hc : c.isDead = true) (hv : v.isDestroyed = true) :
    copTakeDamage a c = c ∧
    carTakeDamage q v = v ∧
    (∀ c' : CopState, c'.isDead = false → (copTakeDamage b c').isDead = true →
      (copTakeDamage b c').maxSpeed = 0 ∧ (copTakeDamage b c').behaviors = [] ∧
      copTakeDamage a (copTakeDamage b c') = copTakeDamage b c') ∧
    (∀ v' : CarState, v'.isDestroyed = false → (carTakeDamage r v').isDestroyed = true →
      carTakeDamage q (carTakeDamage r v') = carTakeDamage r v') := by
  refine ⟨?_, ?_, ?_, ?_⟩
  · unfold copTakeDamage
    rw [if_pos hc]
  · unfold carTakeDamage
    rw [if_pos hv]
  · intro c' h0 h1
    by_cases hh : c'.health - b ≤ 0
    · have hkill : copTakeDamage b c' = copDie { c' with health := c'.health - b } := by
        unfold copTakeDamage
        rw [if_neg (by simp [h0])]
        exact if_pos hh
      refine ⟨by rw [hkill]; rfl, by rw [hkill]; rfl, ?_⟩
      rw [hkill]
      unfold copTakeDamage
      rw [if_pos (show (copDie { c' with health := c'.health - b }).isDead = true from rfl)]
    · have hlive : copTakeDamage b c' = { c' with health := c'.health - b } := by
        unfold copTakeDamage
        rw [if_neg (by simp [h0])]
        exact if_neg hh
      rw [hlive] at h1
      exact absurd h1 (by simp [h0])
  · intro v' h0 h1
    by_cases hh : max 0 (v'.health - r) ≤ 0
    · have hkill : carTakeDamage r v' =
          carExplode { v' with health := max 0 (v'.health - r) } := by
        unfold carTakeDamage
        rw [if_neg (by simp [h0])]
        exact if_pos hh
      rw [hkill]
      unfold carExplode
      rw [if_neg (by simp [h0])]
      unfold carTakeDamage
      rw [if_pos rfl]
    · have hlive : carTakeDamage r v' = { v' with health := max 0 (v'.health - r) } := by
        unfold carTakeDamage
        rw [if_neg (by simp [h0])]
        exact if_neg hh
      rw [hlive] at h1
      exact absurd h1 (by simp [h0])

/-- C7 witness: damaging a dead cop and a destroyed car changes nothing, and
a lethal hit on a fresh one-health cop zeroes its speed and clears its
behaviors. -/
theorem dead_entity_damage_noop_witness :
    copTakeDamage 1 { copFresh with isDead := true } = { copFresh with isDead := true } ∧
    carTakeDamage 5 { carFresh with isDestroyed := true } =
      { carFresh with isDestroyed := true } ∧
    (copTakeDamage 1 copFresh).maxSpeed = 0 ∧ (copTakeDamage 1 copFresh).behaviors = [] := by
  have h := dead_entity_damage_noop { copFresh with isDead := true }
    { carFresh with isDestroyed := true } 1 1 5 5 rfl rfl
  exact ⟨h.1, h.2.1, (h.2.2.1 copFresh rfl (by decide)).1, (h.2.2.1 copFresh rfl (by decide)).2.1⟩

/-- C8 counterexample: the movement filter of the car does not make it
collide with other vehicles — an obstacle in the vehicle collision group
never deflects the car's movement query, so the corrected displacement
through a vehicle-group collider equals the desired displacement even when
the backend would otherwise clamp it to zero. -/
theorem vehicle_filter_counterexample :
    deflects movementCollisionFilter VEHICLE_GROUP = false ∧
    resolveCharacterMovement movementCollisionFilter [VEHICLE_GROUP]
      (fun _ => ⟨0, 0, 0⟩) ⟨1, 0, 1⟩ = ⟨1, 0, 1⟩ := by
  constructor
  · decide
  · rfl

/-- C8 (amended): the car's movement filter makes it collide with buildings
and with the ground while it passes through pedestrians, cops and also other
vehicles; concretely, the corrected displacement equals the desired
displacement whenever every overlapping shape belongs to the pedestrian, cop
or vehicle group. -/
theorem vehicle_movement_filter (obstacles : List Nat) (clamp : Pos → Pos) (desired : Pos)
    (h : ∀ o ∈ obstacles,
      groupsMembership o = PEDESTRIAN_GROUP ∨ groupsMembership o = COP_GROUP ∨
      groupsMembership o = VEHICLE_GROUP) :
    deflects movementCollisionFilter BUILDING_GROUP = true ∧
    deflects movementCollisionFilter GROUND_GROUP = true ∧
    deflects movementCollisionFilter PEDESTRIAN_GROUP = false ∧
    deflects movementCollisionFilter COP_GROUP = false ∧
    deflects movementCollisionFilter VEHICLE_GROUP = false ∧
    resolveCharacterMovement movementCollisionFilter obstacles clamp desired = desired := by
  have hany : obstacles.any (fun o => deflects movementCollisionFilter o) = false := by
    rw [List.any_eq_false]
    intro o ho
    rcases h o ho with h' | h' | h' <;>
      · unfold deflects
        rw [h']
        decide
  refine ⟨by decide, by decide, by decide, by decide, by decide, ?_⟩
  unfold resolveCharacterMovement
  rw [hany]
  rfl

/-- C8 witness: a car query overlapping one pedestrian and one cop collider
keeps its desired displacement. -/
theorem vehicle_movement_filter_witness :
    resolveCharacterMovement movementCollisionFilter [PEDESTRIAN_GROUP, COP_GROUP]
      (fun _ => ⟨0, 0, 0⟩) ⟨2, 0, 3⟩ = ⟨2, 0, 3⟩ :=
  (vehicle_movement_filter [PEDESTRIAN_GROUP, COP_GROUP]
    (fun _ => ⟨0, 0, 0⟩) ⟨2, 0, 3⟩ (by decide)).2.2.2.2.2

/-- C6 counterexample: destroying the occupied sedan forces an exit through
`exitVehicle`; in a world with no ground anywhere the chosen exit position
(3, 0, 0) still comes back — the exit search runs no downward ground cast —
and the destroyed vehicle is removed immediately: the disposal queue stays
empty and the current vehicle slot is simply cleared. -/
theorem vehicle_destruction_exit_counterexample :
    (exitVehicle emptyWorld ⟨0, 0, 0⟩ vmDriving).1 = some ⟨3, 0, 0⟩ ∧
    downGroundOk emptyWorld ⟨3, 0, 0⟩ = false ∧
    (exitVehicle emptyWorld ⟨0, 0, 0⟩ vmDriving).2.vehiclesToCleanup = [] ∧
    (exitVehicle emptyWorld ⟨0, 0, 0⟩ vmDriving).2.vehicle = none := by
  refine ⟨?_, rfl, rfl, rfl⟩
  have h1 : (exitVehicle emptyWorld ⟨0, 0, 0⟩ vmDriving).1 =
      some ((⟨0, 0, 0⟩ : Pos) + ⟨3, 0, 0⟩) := rfl
  rw [h1]
  have h2 : (⟨0, 0, 0⟩ : Pos) + ⟨3, 0, 0⟩ = (⟨0 + 3, 0 + 0, 0 + 0⟩ : Pos) := rfl
  rw [h2]
  norm_num

/-- Helper for C6: the exit candidate loop returns the first candidate whose
horizontal cast reports no blocking building, else the fallback. -/
theorem findExitLoop_eq_find (w : RayWorld) (p : Pos) (l : List Pos) :
    findExitLoop w p l =
      (match l.find? (exitAccepted w p) with
       | some off => p + off
       | none => p) := by
  induction l with
  | nil => rfl
  | cons o rest ih =>
    by_cases hb : horizBlocked w p o
    · have hacc : exitAccepted w p o = false := by
        simp [exitAccepted, hb]
      simp only [findExitLoop, hb, if_true, List.find?, hacc]
      exact ih
    · have hnb : horizBlocked w p o = false := by simpa using hb
      have hacc : exitAccepted w p o = true := by
        simp [exitAccepted, hnb]
      simp only [findExitLoop, hnb, Bool.false_eq_true, if_false, List.find?, hacc]

/-- C6 (amended): when the occupied vehicle's health reaches 0 the forced
dismount through `exitVehicle` returns the exit-search position, which is the
first ring candidate passing the horizontal building check only — no downward
ground validation exists on the exit path — with the vehicle position itself
as fallback; the current vehicle is removed and disposed immediately, leaving
the disposal queue untouched (the queue with its 3.0-second countdown is used
only when switching to an awaiting vehicle), and the current-vehicle state is
fully reset; avatar health is not handled by the vehicle manager. -/
theorem vehicle_destruction_exit (w : RayWorld) (vpos : Pos) (s : VMState) (v : Nat)
    (h : s.vehicle = some v) :
    (exitVehicle w vpos s).1 = some (findSafeExitPosition w vpos) ∧
    (exitVehicle w vpos s).2.vehicle = none ∧
    (exitVehicle w vpos s).2.isInVehicle = false ∧
    (exitVehicle w vpos s).2.vehicleSpawned = false ∧
    (exitVehicle w vpos s).2.currentVehicleTier = none ∧
    (exitVehicle w vpos s).2.vehiclesToCleanup = s.vehiclesToCleanup ∧
    findSafeExitPosition w vpos =
      (match exitOffsets.find? (exitAccepted w vpos) with
       | some off => vpos + off
       | none => vpos) := by
  unfold exitVehicle
  rw [h]
  exact ⟨rfl, rfl, rfl, rfl, rfl, rfl, findExitLoop_eq_find w vpos exitOffsets⟩

/-- C6 witness: the forced dismount from the driven sedan clears the current
vehicle slot. -/
theorem vehicle_destruction_exit_witness :
    (exitVehicle flatWorld ⟨0, 0, 0⟩ vmDriving).2.vehicle = none :=
  (vehicle_destruction_exit flatWorld ⟨0, 0, 0⟩ vmDriving 7 rfl).2.1

/-- Helper for C2: unpacking the awaiting-offer invariant. -/
theorem vmInv_iff (s : VMState) :
    vmInv s = true ↔
      (s.awaitingVehicle.isSome = s.awaitingVehicleTier.isSome ∧
       ∀ t, s.awaitingVehicleTier = some t → tierRank t = effRank s + 1) := by
  unfold vmInv
  rw [Bool.and_eq_true, beq_iff_eq]
  constructor
  · rintro ⟨h1, h2⟩
    refine ⟨h1, fun t ht => ?_⟩
    rw [ht] at h2
    simpa [Option.all] using h2
  · rintro ⟨h1, h2⟩
    refine ⟨h1, ?_⟩
    cases ht : s.awaitingVehicleTier with
    | none => rfl
    | some t => simpa [Option.all] using h2 t ht

/-- Helper for C2: the poll-and-spawn step never changes the effective tier. -/
theorem effTier_checkSpawn (cfg : Tier → ℚ) (w : RayWorld) (s : VMState) (sc : ℚ)
    (id' : Nat) :
    effectiveTier (runStep cfg w s (.checkSpawn sc id')) = effectiveTier s := by
  have h2 : runStep cfg w s (.checkSpawn sc id') =
      (match checkTierProgression cfg s sc with
       | some t' => spawnAwaitingVehicle t' id' s
       | none => s) := rfl
  rw [h2]
  cases checkTierProgression cfg s sc with
  | none => rfl
  | some t =>
    show effectiveTier (spawnAwaitingVehicle t id' s) = effectiveTier s
    unfold spawnAwaitingVehicle
    by_cases hA : s.awaitingVehicle.isSome
    · rw [if_pos hA]
    · rw [if_neg hA]
      cases TIER_VEHICLE_MAP t with
      | none => rfl
      | some vt => rfl

/-- Helper for C2: rank form of `effTier_checkSpawn`. -/
theorem effRank_checkSpawn (cfg : Tier → ℚ) (w : RayWorld) (s : VMState) (sc : ℚ)
    (id' : Nat) :
    effRank (runStep cfg w s (.checkSpawn sc id')) = effRank s := by
  unfold effRank effectiveTierView
  rw [effTier_checkSpawn]

/-- Helper for C2: switching to an awaiting vehicle makes its tier the
effective tier and clears the awaiting state. -/
theorem switchToAwaiting_result (s : VMState) (av : Nat) (t : Tier)
    (hA : s.awaitingVehicle = some av) (hT : s.awaitingVehicleTier = some t) :
    effectiveTier (switchToAwaitingVehicle s) = some t ∧
    (switchToAwaitingVehicle s).awaitingVehicle = none ∧
    (switchToAwaitingVehicle s).awaitingVehicleTier = none := by
  unfold switchToAwaitingVehicle
  rw [hA]
  cases hiv : s.isInVehicle <;> cases hveh : s.vehicle <;>
    simp [enterVehicle, effectiveTier, hT, hiv, hveh]

/-- Helper for C2: every run operation other than an exit preserves the
awaiting-offer invariant and never lowers the effective tier rank. -/
theorem runStep_nonexit_mono (cfg : Tier → ℚ) (w : RayWorld) (s : VMState) (op : RunOp)
    (hop : op ≠ RunOp.exitCurrent) (hinv : vmInv s = true) :
    effRank s ≤ effRank (runStep cfg w s op) ∧ vmInv (runStep cfg w s op) = true := by
  obtain ⟨hiff, hrank⟩ := (vmInv_iff s).mp hinv
  cases op with
  | exitCurrent => exact absurd rfl hop
  | checkSpawn sc id' =>
    refine ⟨le_of_eq (effRank_checkSpawn cfg w s sc id').symm, ?_⟩
    have h2 : runStep cfg w s (.checkSpawn sc id') =
        (match checkTierProgression cfg s sc with
         | some t' => spawnAwaitingVehicle t' id' s
         | none => s) := rfl
    rw [h2]
    cases hc : checkTierProgression cfg s sc with
    | none => exact hinv
    | some t =>
      obtain ⟨hA, hR⟩ := checkTier_some cfg s sc t hc
      unfold spawnAwaitingVehicle
      rw [hA]
      simp only [Option.isSome_none, Bool.false_eq_true, if_false]
      cases hm : TIER_VEHICLE_MAP t with
      | none => exact hinv
      | some vt =>
        refine (vmInv_iff _).mpr ⟨rfl, fun t' ht' => ?_⟩
        have ht'' : t = t' := by injection ht'
        subst ht''
        have he : effRank { s with awaitingVehicle := some id', awaitingVehicleTier := some t } = effRank s := rfl
        rw [he]
        exact hR
  | switchVehicle =>
    have h2 : runStep cfg w s .switchVehicle = switchToAwaitingVehicle s := rfl
    rw [h2]
    cases hA : s.awaitingVehicle with
    | none =>
      have hs : switchToAwaitingVehicle s = s := by
        unfold switchToAwaitingVehicle
        rw [hA]
      rw [hs]
      exact ⟨le_refl _, hinv⟩
    | some av =>
      have hTs : s.awaitingVehicleTier.isSome = true := by rw [← hiff, hA]; rfl
      obtain ⟨t, hT⟩ := Option.isSome_iff_exists.mp hTs
      obtain ⟨he, hA', hT'⟩ := switchToAwaiting_result s av t hA hT
      have hR : tierRank t = effRank s + 1 := hrank t hT
      constructor
      · have he2 : effRank (switchToAwaitingVehicle s) = tierRank t := by
          unfold effRank effectiveTierView
          rw [he]
          rfl
        rw [he2, hR]
        exact Nat.le_succ _
      · refine (vmInv_iff _).mpr ⟨?_, fun t' ht' => ?_⟩
        · rw [hA', hT']
          rfl
        · rw [hT'] at ht'
          exact absurd ht' (by simp)

/-- Helper for C2: every tier returned along an exit-free run ranks strictly
above the starting effective tier. -/
theorem returnedTiers_rank_lb (cfg : Tier → ℚ) (w : RayWorld) (ops : List RunOp) :
    ∀ s : VMState, (∀ op ∈ ops, op ≠ RunOp.exitCurrent) → vmInv s = true →
      ∀ t ∈ returnedTiers cfg w s ops, effRank s + 1 ≤ tierRank t := by
  induction ops with
  | nil =>
    intro s _ _ t ht
    exact absurd ht (by simp [returnedTiers])
  | cons op rest ih =>
    intro s hops hinv t ht
    have hop : op ≠ RunOp.exitCurrent := hops op (List.mem_cons_self op rest)
    have hrest : ∀ o ∈ rest, o ≠ RunOp.exitCurrent :=
      fun o ho => hops o (List.mem_cons_of_mem op ho)
    obtain ⟨hmono, hinv'⟩ := runStep_nonexit_mono cfg w s op hop hinv
    cases op with
    | exitCurrent => exact absurd rfl hop
    | switchVehicle =>
      have hunf : returnedTiers cfg w s (RunOp.switchVehicle :: rest) =
          returnedTiers cfg w (runStep cfg w s RunOp.switchVehicle) rest := rfl
      rw [hunf] at ht
      have h5 := ih _ hrest hinv' t ht
      omega
    | checkSpawn sc id' =>
      have hunf : returnedTiers cfg w s (RunOp.checkSpawn sc id' :: rest) =
          (checkTierProgression cfg s sc).toList ++
            returnedTiers cfg w (runStep cfg w s (RunOp.checkSpawn sc id')) rest := rfl
      rw [hunf, List.mem_append] at ht
      rcases ht with hhd | htl
      · cases hcc : checkTierProgression cfg s sc with
        | none =>
          rw [hcc] at hhd
          exact absurd hhd (by simp)
        | some u =>
          rw [hcc] at hhd
          have htu : t = u := by simpa using hhd
          subst htu
          have h6 := (checkTier_some cfg s sc t hcc).2
          omega
      · have h5 := ih _ hrest hinv' t htl
        omega

/-- C2 counterexample: with every threshold already exceeded, a run that
unlocks BIKE, switches, unlocks MOTO, switches, and then exits the vehicle is
offered BIKE again — `checkTierProgression` returns MOTO and later the
earlier tier BIKE within the same run, because `exitVehicle` resets the
current-vehicle state to Foot. -/
theorem tier_monotonicity_counterexample :
    returnedTiers tierConfig0 emptyWorld vmInitial
      [.checkSpawn 5000 1, .switchVehicle, .checkSpawn 5000 2, .switchVehicle,
       .exitCurrent, .checkSpawn 5000 3] = [.BIKE, .MOTO, .BIKE] ∧
    ¬ List.Pairwise (fun a b => tierRank a ≤ tierRank b)
        (returnedTiers tierConfig0 emptyWorld vmInitial
          [.checkSpawn 5000 1, .switchVehicle, .checkSpawn 5000 2, .switchVehicle,
           .exitCurrent, .checkSpawn 5000 3]) := by
  exact ⟨by decide, by decide⟩

/-- C2 (amended): within a run the non-null tiers returned by
`checkTierProgression` are monotonically non-decreasing as long as the
current vehicle is never exited or destroyed; the exit path resets the
current-vehicle state to Foot, after which an earlier tier can be offered
again. -/
theorem tier_monotonic_no_exit (cfg : Tier → ℚ) (w : RayWorld) (ops : List RunOp) :
    ∀ s : VMState, (∀ op ∈ ops, op ≠ RunOp.exitCurrent) → vmInv s = true →
      List.Pairwise (fun a b => tierRank a ≤ tierRank b)
        (returnedTiers cfg w s ops) := by
  induction ops with
  | nil =>
    intro s _ _
    exact List.Pairwise.nil
  | cons op rest ih =>
    intro s hops hinv
    have hop : op ≠ RunOp.exitCurrent := hops op (List.mem_cons_self op rest)
    have hrest : ∀ o ∈ rest, o ≠ RunOp.exitCurrent :=
      fun o ho => hops o (List.mem_cons_of_mem op ho)
    obtain ⟨hmono, hinv'⟩ := runStep_nonexit_mono cfg w s op hop hinv
    cases op with
    | exitCurrent => exact absurd rfl hop
    | switchVehicle =>
      have hunf : returnedTiers cfg w s (RunOp.switchVehicle :: rest) =
          returnedTiers cfg w (runStep cfg w s RunOp.switchVehicle) rest := rfl
      rw [hunf]
      exact ih _ hrest hinv'
    | checkSpawn sc id' =>
      have hunf : returnedTiers cfg w s (RunOp.checkSpawn sc id' :: rest) =
          (checkTierProgression cfg s sc).toList ++
            returnedTiers cfg w (runStep cfg w s (RunOp.checkSpawn sc id')) rest := rfl
      rw [hunf, List.pairwise_append]
      refine ⟨?_, ih _ hrest hinv', ?_⟩
      · cases checkTierProgression cfg s sc with
        | none => simp
        | some u => simp
      · intro a ha b hb
        cases hcc : checkTierProgression cfg s sc with
        | none =>
          rw [hcc] at ha
          exact absurd ha (by simp)
        | some u =>
          rw [hcc] at ha
          have hau : a = u := by simpa using ha
          subst hau
          have h1 : tierRank a = effRank s + 1 := (checkTier_some cfg s sc a hcc).2
          have h2 := returnedTiers_rank_lb cfg w rest (runStep cfg w s (.checkSpawn sc id'))
            hrest hinv' b hb
          have h3 := effRank_checkSpawn cfg w s sc id'
          omega

/-- C2 witness: an exit-free fresh run that unlocks BIKE, switches and then
unlocks MOTO yields a non-decreasing return sequence. -/
theorem tier_monotonic_no_exit_witness :
    List.Pairwise (fun a b => tierRank a ≤ tierRank b)
      (returnedTiers tierConfig0 emptyWorld vmInitial
        [.checkSpawn 5000 1, .switchVehicle, .checkSpawn 5000 2]) :=
  tier_monotonic_no_exit tierConfig0 emptyWorld
    [.checkSpawn 5000 1, .switchVehicle, .checkSpawn 5000 2] vmInitial
    (by decide) (by decide)

end RampageRider
